import Mathlib

/-!
Verification development for the flipcoin-tma client-side real-time
synchronization engine.

The embedding follows `src/services/websocket.ts` (class `WebSocketService`)
and `src/composables/useGamesAPI.ts` (the reservation cache), with the
message/record types from `src/types/websocket.ts` and
`src/types/reservation.ts`.

Modelling conventions:
- the browser `WebSocket` handle `this.ws` is abstracted by two booleans:
  `wsPresent` (`this.ws !== null`) and `wsOpen` (`readyState === OPEN`);
- a pending `setTimeout` reconnect timer is represented by the scheduled
  delay (`reconnectTimeout : Option Nat`); a cancelled or fired timer is
  `none` and can never fire again;
- `Date` values (`lastConnectedAt`) and the ISO-8601 timestamps carried in
  messages and reservation records are abstracted as natural-number clock
  readings that preserve chronological order (the engine never inspects
  them; only the spec-side last-writer-wins rule compares them);
- the environment's nondeterminism (socket construction failing, a
  transmission throwing) is passed in as explicit `Option String` error
  parameters on the corresponding events.
-/

namespace Flipcoin

/-- `WebSocketConnectionStatus` from types/websocket.ts. -/
inductive WSStatus
  | disconnected
  | connecting
  | connected
  | reconnecting
  | failed
deriving DecidableEq, Repr

/-- `WebSocketState` from types/websocket.ts (the snapshot exposed to
observers).  `lastConnectedAt : Date | null` is an optional clock reading. -/
structure WSState where
  status : WSStatus
  gameId : Option Nat
  clientId : Option String
  lastConnectedAt : Option Nat
  reconnectAttempts : Nat
  error : Option String
deriving DecidableEq, Repr

/-- `ClientMessage` from types/websocket.ts: the only client-to-server
message is `{type: 'sync_request', last_event_timestamp?}`. -/
inductive ClientMessage
  | syncRequest (lastEventTimestamp : Option String)
deriving DecidableEq, Repr

/-- `ReservationStatus` from types/reservation.ts. -/
inductive ReservationStatus
  | active
  | released
  | expired
deriving DecidableEq, Repr

/-- `Reservation` from types/reservation.ts.  `created_at` / `expires_at`
are ISO-8601 server timestamps, abstracted as chronological naturals. -/
structure Reservation where
  game_id : Nat
  wallet_address : String
  created_at : Nat
  expires_at : Nat
  status : ReservationStatus
deriving DecidableEq, Repr

/-- The inbound `WSMessage` union from types/websocket.ts.  Every variant
carries the envelope `timestamp`; the full game snapshot inside
`game_state_update` / `sync_response` is represented by the fields the
composables actually read (`game_id`, `status`). -/
inductive WSMessage
  | gameStateUpdate (timestamp : Nat) (game_id : Nat) (status : Nat)
  | reservationCreated (timestamp : Nat) (game_id : Nat)
      (reserved_by : String) (expires_at : Nat)
  | reservationReleased (timestamp : Nat) (game_id : Nat) (reason : String)
  | syncResponse (timestamp : Nat) (game_id : Nat)
      (reservation : Option Reservation)
  | error (timestamp : Nat) (code : String) (message : String)
deriving DecidableEq, Repr

/-- Configuration constant `MAX_RECONNECT_ATTEMPTS` of websocket.ts. -/
def MAX_RECONNECT_ATTEMPTS : Nat := 5

/-- Configuration constant `INITIAL_RECONNECT_DELAY` of websocket.ts. -/
def INITIAL_RECONNECT_DELAY : Nat := 1000

/-- Configuration constant `MAX_RECONNECT_DELAY` of websocket.ts. -/
def MAX_RECONNECT_DELAY : Nat := 30000

/-- The mutable fields of class `WebSocketService`.  `wsPresent`/`wsOpen`
abstract `this.ws`; `reconnectTimeout` holds the delay of a pending
reconnect timer, `none` when no timer is pending. -/
structure Service where
  wsPresent : Bool
  wsOpen : Bool
  gameId : Option Nat
  initData : String
  reconnectAttempts : Nat
  reconnectTimeout : Option Nat
  clientId : String
  state : WSState
deriving DecidableEq, Repr

/-- JavaScript truthiness of `this.gameId : number | null`
(`null` and `0` are falsy). -/
def jsTruthy : Option Nat → Bool
  | none => false
  | some n => n != 0

/-- The state of a fresh `new WebSocketService()` with the given persistent
client id. -/
def initService (clientId : String) : Service :=
  { wsPresent := false
    wsOpen := false
    gameId := none
    initData := ""
    reconnectAttempts := 0
    reconnectTimeout := none
    clientId := clientId
    state :=
      { status := .disconnected
        gameId := none
        clientId := some clientId
        lastConnectedAt := none
        reconnectAttempts := 0
        error := none } }

/-- Observable wire transmissions produced by the engine. -/
inductive Output
  | sentFrame (m : ClientMessage)
deriving DecidableEq, Repr

/-- Method `send`: returns false without transmitting when the socket is
absent or not open; otherwise serializes and hands the frame to the
transport.  `txError = some e` models `ws.send` throwing: the exception is
caught and `false` is returned. -/
def send (s : Service) (m : ClientMessage) (txError : Option String) :
    Bool × List Output :=
  if !(s.wsPresent && s.wsOpen) then
    (false, [])
  else
    match txError with
    | none => (true, [Output.sentFrame m])
    | some _ => (false, [])

/-- Method `sendSyncRequest`. -/
def sendSyncRequest (s : Service) (lastEventTimestamp : Option String)
    (txError : Option String) : Bool × List Output :=
  send s (ClientMessage.syncRequest lastEventTimestamp) txError

/-- Method `clearReconnectTimeout`. -/
def clearReconnectTimeout (s : Service) : Service :=
  { s with reconnectTimeout := none }

/-- Method `disconnect`: clears the timer, detaches listeners and drops the
socket, clears `gameId`/`initData`, resets the counter and publishes a
`disconnected` snapshot. -/
def disconnect (s : Service) : Service :=
  let s := clearReconnectTimeout s
  let s := if s.wsPresent then { s with wsPresent := false, wsOpen := false } else s
  let s := { s with gameId := none, initData := "", reconnectAttempts := 0 }
  { s with state := { s.state with status := .disconnected, gameId := none, error := none } }

/-- The backoff delay computed inside `attemptReconnect`:
`Math.min(INITIAL_RECONNECT_DELAY * 2 ** (attempts - 1), MAX_RECONNECT_DELAY)`. -/
def reconnectDelay (attempts : Nat) : Nat :=
  min (INITIAL_RECONNECT_DELAY * 2 ^ (attempts - 1)) MAX_RECONNECT_DELAY

/-- Method `attemptReconnect`: transitions to `failed` once the counter has
reached `MAX_RECONNECT_ATTEMPTS`; otherwise consumes one attempt and
schedules one backoff timer. -/
def attemptReconnect (s : Service) : Service :=
  if s.reconnectAttempts ≥ MAX_RECONNECT_ATTEMPTS then
    { s with state := { s.state with
        status := .failed
        error := some "Failed to reconnect after maximum attempts" } }
  else
    let attempts := s.reconnectAttempts + 1
    { s with
      reconnectAttempts := attempts
      reconnectTimeout := some (reconnectDelay attempts)
      state := { s.state with status := .reconnecting, reconnectAttempts := attempts } }

/-- Method `handleDisconnect` (the `onclose` handler body after logging):
drops the socket; no retry on normal closure (code 1000) or when no game is
recorded, otherwise feeds the reconnection path. -/
def handleDisconnect (s : Service) (code : Nat) : Service :=
  let s := { s with wsPresent := false, wsOpen := false }
  if code == 1000 || !(jsTruthy s.gameId) then
    { s with state := { s.state with status := .disconnected, error := none } }
  else
    attemptReconnect s

/-- Method `handleConnectionError`: records the error message and, when a
game is recorded, feeds the same reconnection path. -/
def handleConnectionError (s : Service) (errMsg : String) : Service :=
  let s := { s with state := { s.state with error := some errMsg } }
  if jsTruthy s.gameId then attemptReconnect s else s

/-- Method `createConnection`: no-op without a (truthy) game id; otherwise
constructs the socket, and a construction exception (`constructError`)
is caught and routed to `handleConnectionError`. -/
def createConnection (s : Service) (constructError : Option String) : Service :=
  if !(jsTruthy s.gameId) then
    s
  else
    match constructError with
    | none => { s with wsPresent := true, wsOpen := false }
    | some e => handleConnectionError s e

/-- Method `connect`: idempotent teardown-then-establish. -/
def connect (s : Service) (gid : Nat) (initD : String)
    (constructError : Option String) : Service :=
  let s := disconnect s
  let s := { s with gameId := some gid, initData := initD, reconnectAttempts := 0 }
  let s := { s with state := { s.state with
      status := .connecting, gameId := some gid, error := none } }
  createConnection s constructError

/-- The `onopen` handler: resets the counter, publishes the `connected`
snapshot (which assigns `lastConnectedAt := now`), and then — reading the
just-updated `this.state.lastConnectedAt` — sends a sync request. -/
def onopen (s : Service) (now : Nat) (txError : Option String) :
    Service × List Output :=
  let s := { s with wsOpen := true }
  let s := { s with reconnectAttempts := 0 }
  let s := { s with state := { s.state with
      status := .connected
      lastConnectedAt := some now
      reconnectAttempts := 0
      error := none } }
  if (s.state.lastConnectedAt).isSome then
    (s, (sendSyncRequest s none txError).2)
  else
    (s, [])

/-- Events driving the engine: the two public calls, the four transport
callbacks and the backoff timer firing.  `constructError`/`txError` carry
the environment's behavior for the socket constructor and `ws.send`. -/
inductive Event
  | connectCall (gid : Nat) (initD : String) (constructError : Option String)
  | disconnectCall
  | transportOpen (now : Nat) (txError : Option String)
  | transportClose (code : Nat)
  | transportError (errMsg : String)
  | timerFire (constructError : Option String)
deriving DecidableEq, Repr

/-- One engine step.  Transport callbacks only run while their listeners are
attached (`wsPresent`); a timer only fires while it is pending. -/
def step (s : Service) (e : Event) : Service × List Output :=
  match e with
  | .connectCall gid d ce => (connect s gid d ce, [])
  | .disconnectCall => (disconnect s, [])
  | .transportOpen now tx => if s.wsPresent then onopen s now tx else (s, [])
  | .transportClose code => if s.wsPresent then (handleDisconnect s code, []) else (s, [])
  | .transportError m => if s.wsPresent then (handleConnectionError s m, []) else (s, [])
  | .timerFire ce =>
    match s.reconnectTimeout with
    | some _ => (createConnection (clearReconnectTimeout s) ce, [])
    | none => (s, [])

/-- Run a sequence of events, collecting all transmissions. -/
def run (s : Service) (es : List Event) : Service × List Output :=
  match es with
  | [] => (s, [])
  | e :: rest =>
    let r1 := step s e
    let r2 := run r1.1 rest
    (r2.1, r1.2 ++ r2.2)

/-- C4: for every attempt count `n` with `1 ≤ n ≤ 5`, the delay scheduled by
`attemptReconnect` before attempt `n` is `min (1000 * 2 ^ (n-1)) 30000`
milliseconds — i.e. 1000, 2000, 4000, 8000, 16000 — and it is computed by
the pure function `reconnectDelay` of `n` alone. -/
theorem c4_backoff_delay (n : Nat) (h1 : 1 ≤ n) (h2 : n ≤ 5) :
    reconnectDelay n = min (1000 * 2 ^ (n - 1)) 30000 ∧
    (∀ s : Service, s.reconnectAttempts = n - 1 →
      (attemptReconnect s).reconnectTimeout = some (reconnectDelay n) ∧
      (attemptReconnect s).reconnectAttempts = n) ∧
    reconnectDelay 1 = 1000 ∧ reconnectDelay 2 = 2000 ∧ reconnectDelay 3 = 4000 ∧
    reconnectDelay 4 = 8000 ∧ reconnectDelay 5 = 16000 := by
  refine ⟨rfl, ?_, by decide, by decide, by decide, by decide, by decide⟩
  intro s hs
  rw [attemptReconnect, if_neg]
  · simp only [hs]
    rw [Nat.sub_add_cancel h1]
    exact ⟨rfl, rfl⟩
  · rw [hs, MAX_RECONNECT_ATTEMPTS]
    omega

/-- Witness for C4 at `n = 3`. -/
theorem c4_backoff_delay_witness :
    (1 ≤ 3 ∧ 3 ≤ 5) ∧ reconnectDelay 3 = 4000 :=
  ⟨⟨by decide, by decide⟩, (c4_backoff_delay 3 (by decide) (by decide)).2.2.2.2.1⟩

/-- C1 (evaluation at the failing input): on the very first successful
connection of the engine's lifetime — `lastConnectedAt` is still `null`
when the transport opens — the engine nevertheless sends a sync-request,
because `updateState` assigns `lastConnectedAt := new Date()` before the
`if (this.state.lastConnectedAt)` check, making that check always true. -/
theorem c1_first_connection_sends_sync_request :
    (step (initService "cid") (Event.connectCall 42 "tma-init" none)).1.state.lastConnectedAt
        = none ∧
    (step (step (initService "cid") (Event.connectCall 42 "tma-init" none)).1
        (Event.transportOpen 100 none)).2
      = [Output.sentFrame (ClientMessage.syncRequest none)] := by
  decide

/-- The event pattern of six consecutive abnormal closures with no
intervening successful open: the initial abnormal closure plus the five
scheduled retry attempts, each of which fails abnormally again. -/
def sixAbnormalClosures : List Event :=
  [.transportClose 1006, .timerFire none, .transportClose 1006, .timerFire none,
   .transportClose 1006, .timerFire none, .transportClose 1006, .timerFire none,
   .transportClose 1006, .timerFire none, .transportClose 1006]

/-- Environment-driven events (transport callbacks and timers), as opposed
to the explicit public calls `connect`/`disconnect`. -/
def isEngineEvent : Event → Bool
  | .connectCall _ _ _ => false
  | .disconnectCall => false
  | _ => true

/-- With no socket and no pending timer, every environment-driven event is a
no-op: listeners are detached and a cancelled or exhausted timer cannot
fire. -/
theorem stepInert (s : Service) (e : Event) (hp : s.wsPresent = false)
    (ht : s.reconnectTimeout = none) (he : isEngineEvent e = true) :
    step s e = (s, []) := by
  cases e <;> simp_all [step, isEngineEvent]

/-- `stepInert` lifted to event sequences. -/
theorem runInert (s : Service) (es : List Event) (hp : s.wsPresent = false)
    (ht : s.reconnectTimeout = none) (he : ∀ e ∈ es, isEngineEvent e = true) :
    (run s es).1 = s := by
  induction es with
  | nil => rfl
  | cons e rest ih =>
    have h1 := stepInert s e hp ht (he e (by simp))
    simp only [run, h1]
    exact ih fun x hx => he x (by simp [hx])

/-- C3 counterexample: from a freshly connected state (`reconnectAttempts =
0`), after exactly 5 consecutive abnormal closures the status is
`reconnecting` — not `failed` — and a further reconnect timer (16000 ms) is
scheduled, because `attemptReconnect` only gives up once the counter
already equals 5, i.e. on the sixth closure. -/
theorem c3_five_closures_not_failed :
    ((run (initService "cid") [Event.connectCall 42 "d" none,
        Event.transportOpen 0 none]).1.reconnectAttempts = 0) ∧
    ((run (run (initService "cid") [Event.connectCall 42 "d" none,
          Event.transportOpen 0 none]).1
        [Event.transportClose 1006, Event.timerFire none, Event.transportClose 1006,
         Event.timerFire none, Event.transportClose 1006, Event.timerFire none,
         Event.transportClose 1006, Event.timerFire none,
         Event.transportClose 1006]).1.state.status = WSStatus.reconnecting) ∧
    ((run (run (initService "cid") [Event.connectCall 42 "d" none,
          Event.transportOpen 0 none]).1
        [Event.transportClose 1006, Event.timerFire none, Event.transportClose 1006,
         Event.timerFire none, Event.transportClose 1006, Event.timerFire none,
         Event.transportClose 1006, Event.timerFire none,
         Event.transportClose 1006]).1.state.status ≠ WSStatus.failed) ∧
    ((run (run (initService "cid") [Event.connectCall 42 "d" none,
          Event.transportOpen 0 none]).1
        [Event.transportClose 1006, Event.timerFire none, Event.transportClose 1006,
         Event.timerFire none, Event.transportClose 1006, Event.timerFire none,
         Event.transportClose 1006, Event.timerFire none,
         Event.transportClose 1006]).1.reconnectTimeout = some 16000) := by
  decide

/-- C3 amended: starting from any state with `reconnectAttempts = 0`, a live
socket and a recorded game, it takes six consecutive abnormal closures (the
initial closure plus its five failed retries) to reach `failed`; then no
timer is pending, and the engine stays in that exact state under every
further transport or timer event until an explicit `connect` (or
`disconnect`) call. -/
theorem c3_six_closures_failed_terminal (s : Service)
    (h0 : s.reconnectAttempts = 0) (hp : s.wsPresent = true)
    (hg : jsTruthy s.gameId = true) :
    ((run s sixAbnormalClosures).1.state.status = WSStatus.failed ∧
     (run s sixAbnormalClosures).1.reconnectTimeout = none) ∧
    (∀ es : List Event, (∀ e ∈ es, isEngineEvent e = true) →
      (run (run s sixAbnormalClosures).1 es).1 = (run s sixAbnormalClosures).1) := by
  obtain ⟨wsP, wsO, gid, d, ra, rt, cid, st⟩ := s
  simp only at h0 hp
  subst h0 hp
  cases gid with
  | none => simp [jsTruthy] at hg
  | some n =>
    simp only [jsTruthy] at hg
    have hrun : (run ⟨true, wsO, some n, d, 0, rt, cid, st⟩ sixAbnormalClosures).1
        = ⟨false, false, some n, d, 5, none, cid,
           { st with
             status := .failed
             reconnectAttempts := 5
             error := some "Failed to reconnect after maximum attempts" }⟩ := by
      simp [sixAbnormalClosures, run, step, handleDisconnect, attemptReconnect,
            createConnection, clearReconnectTimeout, jsTruthy, hg, reconnectDelay,
            MAX_RECONNECT_ATTEMPTS, INITIAL_RECONNECT_DELAY, MAX_RECONNECT_DELAY]
    rw [hrun]
    refine ⟨⟨rfl, rfl⟩, ?_⟩
    intro es he
    exact runInert _ es rfl rfl he

/-- Witness for C3 amended, at a concrete freshly connected engine. -/
theorem c3_six_closures_failed_terminal_witness :
    (run (run (initService "w3") [Event.connectCall 7 "i" none,
        Event.transportOpen 5 none]).1 sixAbnormalClosures).1.state.status
      = WSStatus.failed :=
  ((c3_six_closures_failed_terminal _ (by decide) (by decide) (by decide)).1).1

/-- C5: a Connecting-phase failure — a transport error before open or a
socket-construction exception — consumes exactly one reconnect attempt and
schedules exactly one backoff timer of `reconnectDelay (attempts + 1)`,
identically to one abnormal Connected-phase closure. -/
theorem c5_connecting_error_consumes_one_attempt (s : Service) (errMsg : String)
    (code : Nat) (hp : s.wsPresent = true) (hg : jsTruthy s.gameId = true)
    (ha : s.reconnectAttempts < MAX_RECONNECT_ATTEMPTS) (hc : code ≠ 1000) :
    ((step s (Event.transportError errMsg)).1.reconnectAttempts
        = s.reconnectAttempts + 1 ∧
     (step s (Event.transportError errMsg)).1.reconnectTimeout
        = some (reconnectDelay (s.reconnectAttempts + 1)) ∧
     (step s (Event.transportError errMsg)).1.state.status = WSStatus.reconnecting) ∧
    ((step s (Event.transportClose code)).1.reconnectAttempts
        = s.reconnectAttempts + 1 ∧
     (step s (Event.transportClose code)).1.reconnectTimeout
        = some (reconnectDelay (s.reconnectAttempts + 1)) ∧
     (step s (Event.transportClose code)).1.state.status = WSStatus.reconnecting) ∧
    ((createConnection s (some errMsg)).reconnectAttempts = s.reconnectAttempts + 1 ∧
     (createConnection s (some errMsg)).reconnectTimeout
        = some (reconnectDelay (s.reconnectAttempts + 1))) := by
  have hb : (code == 1000) = false := by simp [hc]
  have hna : ¬ s.reconnectAttempts ≥ MAX_RECONNECT_ATTEMPTS := by omega
  simp [step, hp, hg, hb, hna, handleConnectionError, handleDisconnect,
        createConnection, attemptReconnect]

/-- Witness for C5 at a concrete freshly connected engine. -/
theorem c5_connecting_error_consumes_one_attempt_witness :
    (step (run (initService "w5") [Event.connectCall 9 "i" none,
        Event.transportOpen 3 none]).1 (Event.transportError "boom")).1.reconnectAttempts
      = (run (initService "w5") [Event.connectCall 9 "i" none,
          Event.transportOpen 3 none]).1.reconnectAttempts + 1 :=
  ((c5_connecting_error_consumes_one_attempt _ "boom" 1006 (by decide) (by decide)
    (by decide) (by decide)).1).1

/-- C6: `disconnect()` from every state (including a never-connected engine)
yields status `disconnected`, cancels any pending reconnect timer — after
which a late timer fire, closure or error is a strict no-op, so no late
reconnect can happen — and clears the recorded `gameId` and `initData`.
The embedded `disconnect` is a total function: it cannot throw. -/
theorem c6_disconnect_safe_from_any_state (s : Service) :
    (step s Event.disconnectCall).1.state.status = WSStatus.disconnected ∧
    (step s Event.disconnectCall).1.reconnectTimeout = none ∧
    (step s Event.disconnectCall).1.gameId = none ∧
    (step s Event.disconnectCall).1.initData = "" ∧
    (∀ ce, step (step s Event.disconnectCall).1 (Event.timerFire ce)
        = ((step s Event.disconnectCall).1, [])) ∧
    (∀ code, step (step s Event.disconnectCall).1 (Event.transportClose code)
        = ((step s Event.disconnectCall).1, [])) ∧
    (∀ em, step (step s Event.disconnectCall).1 (Event.transportError em)
        = ((step s Event.disconnectCall).1, [])) := by
  obtain ⟨wsP, wsO, gid, d, ra, rt, cid, st⟩ := s
  cases wsP <;> simp [step, disconnect, clearReconnectTimeout]

/-- Witness for C6 on a mid-reconnect engine. -/
theorem c6_disconnect_safe_witness :
    (step (run (initService "w6") [Event.connectCall 4 "i" none,
        Event.transportClose 1006]).1 Event.disconnectCall).1.state.status
      = WSStatus.disconnected :=
  (c6_disconnect_safe_from_any_state _).1

/-- C7: `send` returns false and transmits nothing whenever the socket is
not present-and-open; when it is open it serializes and transmits the frame
and returns true; and a transmission exception is caught, with `send`
returning false instead of throwing (the embedded `send` is total). -/
theorem c7_send_contract (s : Service) (m : ClientMessage) (txError : Option String) :
    ((s.wsPresent && s.wsOpen) = false → send s m txError = (false, [])) ∧
    ((s.wsPresent && s.wsOpen) = true → txError = none →
        send s m txError = (true, [Output.sentFrame m])) ∧
    ((s.wsPresent && s.wsOpen) = true → txError.isSome = true →
        (send s m txError).1 = false) := by
  refine ⟨fun h => ?_, fun h hn => ?_, fun h hs => ?_⟩
  · simp [send, h]
  · subst hn; simp [send, h]
  · obtain ⟨e, he⟩ := Option.isSome_iff_exists.mp hs
    subst he; simp [send, h]

/-- Witness for C7 on a concrete open connection. -/
theorem c7_send_contract_witness :
    send (run (initService "w7") [Event.connectCall 9 "i" none,
        Event.transportOpen 3 none]).1 (ClientMessage.syncRequest none) none
      = (true, [Output.sentFrame (ClientMessage.syncRequest none)]) :=
  (c7_send_contract _ (ClientMessage.syncRequest none) none).2.1 (by decide) rfl

/-- A registered message observer (`MessageHandler`); an observer that
throws is modelled as returning `Except.error`. -/
abbrev MsgHandler := WSMessage → Except String Unit

/-- What the dispatch loop did with one observer: delivered normally, or
caught the exception it threw. -/
inductive HandlerOutcome
  | delivered
  | caught (err : String)
deriving DecidableEq, Repr

/-- One iteration of the `notifyMessageHandlers` loop body:
`try { handler(message) } catch (error) { console.error(...) }`. -/
def runHandler (h : MsgHandler) (m : WSMessage) : HandlerOutcome :=
  match h m with
  | .ok _ => .delivered
  | .error e => .caught e

/-- Method `notifyMessageHandlers`: iterate all registered observers in
order, catching each observer's exception individually. -/
def notifyMessageHandlers (hs : List MsgHandler) (m : WSMessage) :
    List HandlerOutcome :=
  match hs with
  | [] => []
  | h :: rest => runHandler h m :: notifyMessageHandlers rest m

/-- The `onmessage` handler: `JSON.parse` of the raw frame either yields a
`WSMessage` (`parsed = some m`, which is dispatched) or throws
(`parsed = none`: the error is logged and the frame dropped). -/
def onmessage (s : Service) (hs : List MsgHandler) (parsed : Option WSMessage) :
    Service × List HandlerOutcome :=
  match parsed with
  | some m => (s, notifyMessageHandlers hs m)
  | none => (s, [])

/-- C8: a malformed (undecodable) inbound frame is dropped: the service
state is completely untouched (in particular a `connected` status stays
`connected`), no registered observer is invoked for it, and the dispatcher
— a total function — does not crash; a well-formed frame, by contrast, is
fanned out to every observer. -/
theorem c8_malformed_frame_dropped (s : Service) (hs : List MsgHandler) :
    onmessage s hs none = (s, []) ∧
    (∀ m, onmessage s hs (some m) = (s, notifyMessageHandlers hs m)) :=
  ⟨rfl, fun _ => rfl⟩

/-- C9: an exception thrown by one observer is caught (recorded as a
`caught` outcome, never propagated), and every observer registered after it
is still invoked with the same message. -/
theorem c9_observer_fault_isolation (pre post : List MsgHandler) (h : MsgHandler)
    (m : WSMessage) (e : String) (hb : h m = Except.error e) :
    notifyMessageHandlers (pre ++ h :: post) m
      = notifyMessageHandlers pre m
          ++ HandlerOutcome.caught e :: notifyMessageHandlers post m ∧
    notifyMessageHandlers post m = post.map (fun g => runHandler g m) := by
  constructor
  · induction pre with
    | nil => simp [notifyMessageHandlers, runHandler, hb]
    | cons p ps ih => simp [notifyMessageHandlers, ih]
  · induction post with
    | nil => rfl
    | cons p ps ih => simp [notifyMessageHandlers, ih]

/-- A demonstration inbound message. -/
def demoMsg : WSMessage := .error 100 "E1" "server error"

/-- An observer that returns normally. -/
def okHandler : MsgHandler := fun _ => Except.ok ()

/-- An observer that throws. -/
def badHandler : MsgHandler := fun _ => Except.error "observer crashed"

/-- Witness for C9: a throwing observer between two healthy ones. -/
theorem c9_observer_fault_isolation_witness :
    notifyMessageHandlers ([okHandler] ++ badHandler :: [okHandler]) demoMsg
      = notifyMessageHandlers [okHandler] demoMsg
          ++ HandlerOutcome.caught "observer crashed"
            :: notifyMessageHandlers [okHandler] demoMsg :=
  (c9_observer_fault_isolation [okHandler] [okHandler] badHandler demoMsg
    "observer crashed" rfl).1

/-- `APIGame` from types/api.ts (backend game entity). -/
structure APIGame where
  game_id : Nat
  status : Nat
  player_one_address : String
  player_two_address : Option String
  player_one_choice : Nat
  player_two_choice : Option Nat
  player_one_referrer : Option String
  player_two_referrer : Option String
  bet_amount : Nat
  winner_address : Option String
  payout_amount : Option Nat
  service_fee_numerator : Nat
  referrer_fee_numerator : Nat
  waiting_timeout_seconds : Nat
  lowest_bid_allowed : Nat
  highest_bid_allowed : Nat
  fee_receiver_address : String
  created_at : String
  joined_at : Option String
  revealed_at : Option String
  completed_at : Option String
  init_tx_hash : String
  join_tx_hash : Option String
  reveal_tx_hash : Option String
  result_tx_hash : Option String
  cancelled : Bool
deriving DecidableEq, Repr

/-- `GameWithReservation` from types/api.ts. -/
structure GameWithReservation where
  game : APIGame
  reservation : Option Reservation
deriving DecidableEq, Repr

variable {α : Type _}

/-- JS `Map.prototype.get`, with `undefined` as `none`: the (unique) entry
for the key. -/
def jsMapGet : List (Nat × α) → Nat → Option α
  | [], _ => none
  | kv :: rest, k => if kv.1 == k then some kv.2 else jsMapGet rest k

/-- JS `Map.prototype.set`: replaces the value in place when the key exists
(preserving insertion order), otherwise appends a new entry. -/
def jsMapSet : List (Nat × α) → Nat → α → List (Nat × α)
  | [], k, v => [(k, v)]
  | kv :: rest, k, v => if kv.1 == k then (k, v) :: rest else kv :: jsMapSet rest k v

/-- JS `Map.prototype.delete`: removes the (unique) entry for the key. -/
def jsMapDelete : List (Nat × α) → Nat → List (Nat × α)
  | [], _ => []
  | kv :: rest, k => if kv.1 == k then rest else kv :: jsMapDelete rest k

/-- The keys of a JS map, in insertion order. -/
def jsMapKeys (m : List (Nat × α)) : List Nat :=
  m.map Prod.fst

/-- Representation invariant of the JS-map embedding: one entry per key. -/
def keysNodup (m : List (Nat × α)) : Prop :=
  (jsMapKeys m).Nodup

theorem jsMapGet_eq_none_of_not_mem_keys (m : List (Nat × α)) (k : Nat)
    (h : k ∉ jsMapKeys m) : jsMapGet m k = none := by
  induction m with
  | nil => rfl
  | cons kv rest ih =>
    rw [jsMapKeys, List.map_cons, List.mem_cons] at h
    push_neg at h
    have hb : ¬ (kv.1 == k) = true := by
      rw [beq_iff_eq]
      exact fun hh => h.1 hh.symm
    simp only [jsMapGet, if_neg hb]
    exact ih (by rw [jsMapKeys]; exact h.2)

/-- Lookup after `set`: the written value at the written key, everything
else unchanged. -/
theorem jsMapGet_set (m : List (Nat × α)) (k k' : Nat) (v : α) :
    jsMapGet (jsMapSet m k v) k' = if k' = k then some v else jsMapGet m k' := by
  induction m with
  | nil =>
    by_cases hk : k' = k
    · simp [jsMapSet, jsMapGet, hk]
    · simp [jsMapSet, jsMapGet, beq_iff_eq, hk, Ne.symm hk]
  | cons kv rest ih =>
    by_cases h1 : (kv.1 == k) = true
    · rw [beq_iff_eq] at h1
      by_cases hk : k' = k
      · simp [jsMapSet, jsMapGet, h1, hk]
      · simp [jsMapSet, jsMapGet, beq_iff_eq, h1, hk, Ne.symm hk]
    · rw [beq_iff_eq] at h1
      by_cases h2 : (kv.1 == k') = true
      · rw [beq_iff_eq] at h2
        have hk : ¬ k' = k := fun hh => h1 (h2.trans hh)
        simp [jsMapSet, jsMapGet, beq_iff_eq, h1, h2, hk]
      · rw [beq_iff_eq] at h2
        simp [jsMapSet, jsMapGet, beq_iff_eq, h1, h2, ih]

/-- Lookup after `delete`: gone at the deleted key, everything else
unchanged (for a well-formed map). -/
theorem jsMapGet_delete (m : List (Nat × α)) (k k' : Nat) (hm : keysNodup m) :
    jsMapGet (jsMapDelete m k) k' = if k' = k then none else jsMapGet m k' := by
  induction m with
  | nil =>
    by_cases hk : k' = k <;> simp [jsMapDelete, jsMapGet, hk]
  | cons kv rest ih =>
    rw [keysNodup, jsMapKeys, List.map_cons, List.nodup_cons] at hm
    have ihr := ih (by rw [keysNodup]; exact hm.2)
    by_cases h1 : (kv.1 == k) = true
    · rw [beq_iff_eq] at h1
      by_cases hk : k' = k
      · -- the deleted entry was the head; its key cannot recur in the tail
        have hnone : jsMapGet rest k = none :=
          jsMapGet_eq_none_of_not_mem_keys rest k (by rw [← h1]; exact hm.1)
        simp [jsMapDelete, beq_iff_eq, h1, hk, hnone]
      · simp [jsMapDelete, jsMapGet, beq_iff_eq, h1, hk, Ne.symm hk]
    · rw [beq_iff_eq] at h1
      by_cases hk : k' = k
      · subst hk
        simp [jsMapDelete, jsMapGet, beq_iff_eq, h1, ihr]
      · simp [jsMapDelete, jsMapGet, beq_iff_eq, h1, hk, ihr]

theorem jsMapGet_delete_ne (m : List (Nat × α)) (k k' : Nat) (h : ¬ k' = k) :
    jsMapGet (jsMapDelete m k) k' = jsMapGet m k' := by
  induction m with
  | nil => rfl
  | cons a rest ih =>
    by_cases hb : (a.1 == k) = true
    · have hb2 : ¬ (a.1 == k') = true := by
        rw [beq_iff_eq, beq_iff_eq.mp hb]
        exact fun hh => h hh.symm
      simp only [jsMapDelete, if_pos hb, jsMapGet, if_neg hb2]
    · simp only [jsMapDelete, if_neg hb, jsMapGet, ih]

theorem mem_jsMapSet (m : List (Nat × α)) (k : Nat) (v : α) (kv : Nat × α)
    (h : kv ∈ jsMapSet m k v) : kv = (k, v) ∨ kv ∈ m := by
  induction m with
  | nil =>
    simp only [jsMapSet, List.mem_singleton] at h
    exact Or.inl h
  | cons a rest ih =>
    by_cases hb : (a.1 == k) = true
    · simp only [jsMapSet, if_pos hb, List.mem_cons] at h
      rcases h with h | h
      · exact Or.inl h
      · exact Or.inr (List.mem_cons_of_mem _ h)
    · simp only [jsMapSet, if_neg hb, List.mem_cons] at h
      rcases h with h | h
      · exact Or.inr (by rw [h]; exact List.mem_cons_self a rest)
      · rcases ih h with h2 | h2
        · exact Or.inl h2
        · exact Or.inr (List.mem_cons_of_mem _ h2)

theorem mem_jsMapDelete (m : List (Nat × α)) (k : Nat) (kv : Nat × α)
    (h : kv ∈ jsMapDelete m k) : kv ∈ m := by
  induction m with
  | nil => exact absurd h (by simp [jsMapDelete])
  | cons a rest ih =>
    by_cases hb : (a.1 == k) = true
    · simp only [jsMapDelete, if_pos hb] at h
      exact List.mem_cons_of_mem _ h
    · simp only [jsMapDelete, if_neg hb, List.mem_cons] at h
      rcases h with h | h
      · exact (by rw [h]; exact List.mem_cons_self a rest)
      · exact List.mem_cons_of_mem _ (ih h)

theorem mem_jsMapKeys_set (m : List (Nat × α)) (k : Nat) (v : α) (x : Nat)
    (h : x ∈ jsMapKeys (jsMapSet m k v)) : x = k ∨ x ∈ jsMapKeys m := by
  rw [jsMapKeys] at h
  obtain ⟨kv, hkv, hx⟩ := List.mem_map.mp h
  rcases mem_jsMapSet m k v kv hkv with h2 | h2
  · left
    rw [← hx, h2]
  · right
    rw [jsMapKeys]
    exact hx ▸ List.mem_map_of_mem Prod.fst h2

theorem mem_jsMapKeys_delete (m : List (Nat × α)) (k : Nat) (x : Nat)
    (h : x ∈ jsMapKeys (jsMapDelete m k)) : x ∈ jsMapKeys m := by
  rw [jsMapKeys] at h
  obtain ⟨kv, hkv, hx⟩ := List.mem_map.mp h
  rw [jsMapKeys]
  exact hx ▸ List.mem_map_of_mem Prod.fst (mem_jsMapDelete m k kv hkv)

theorem keysNodup_jsMapSet (m : List (Nat × α)) (k : Nat) (v : α)
    (hm : keysNodup m) : keysNodup (jsMapSet m k v) := by
  induction m with
  | nil => simp [jsMapSet, keysNodup, jsMapKeys]
  | cons a rest ih =>
    rw [keysNodup, jsMapKeys, List.map_cons, List.nodup_cons] at hm
    by_cases hb : (a.1 == k) = true
    · rw [keysNodup, jsMapKeys]
      simp only [jsMapSet, if_pos hb, List.map_cons, List.nodup_cons]
      rw [beq_iff_eq] at hb
      exact ⟨by rw [← hb]; exact hm.1, hm.2⟩
    · rw [keysNodup, jsMapKeys]
      simp only [jsMapSet, if_neg hb, List.map_cons, List.nodup_cons]
      refine ⟨?_, ih hm.2⟩
      intro hmem
      rcases mem_jsMapKeys_set rest k v a.1 hmem with h2 | h2
      · rw [beq_iff_eq] at hb
        exact hb h2
      · exact hm.1 h2

theorem keysNodup_jsMapDelete (m : List (Nat × α)) (k : Nat)
    (hm : keysNodup m) : keysNodup (jsMapDelete m k) := by
  induction m with
  | nil => simpa [jsMapDelete] using hm
  | cons a rest ih =>
    rw [keysNodup, jsMapKeys, List.map_cons, List.nodup_cons] at hm
    by_cases hb : (a.1 == k) = true
    · rw [keysNodup, jsMapKeys]
      simp only [jsMapDelete, if_pos hb]
      exact hm.2
    · rw [keysNodup, jsMapKeys]
      simp only [jsMapDelete, if_neg hb, List.map_cons, List.nodup_cons]
      exact ⟨fun hmem => hm.1 (mem_jsMapKeys_delete rest k a.1 hmem), ih hm.2⟩

theorem exists_mem_of_jsMapGet_eq_some (m : List (Nat × α)) (k : Nat) (v : α)
    (h : jsMapGet m k = some v) : ∃ kv ∈ m, kv.2 = v := by
  induction m with
  | nil => exact absurd h (by simp [jsMapGet])
  | cons kv rest ih =>
    by_cases hb : (kv.1 == k) = true
    · simp only [jsMapGet, if_pos hb, Option.some.injEq] at h
      exact ⟨kv, List.mem_cons_self kv rest, h⟩
    · simp only [jsMapGet, if_neg hb] at h
      obtain ⟨kv2, hmem, hv⟩ := ih h
      exact ⟨kv2, List.mem_cons_of_mem _ hmem, hv⟩

/-- One step of the "Then override with WebSocket updates" loop of the
`reservations` computed property in useGamesAPI.ts:
`if (reservation && reservation.status === 'active') map.set(gameId, reservation)
 else map.delete(gameId)`. -/
def applyUpdate (m : List (Nat × Reservation)) (u : Nat × Option Reservation) :
    List (Nat × Reservation) :=
  match u.2 with
  | some r =>
    if r.status = ReservationStatus.active then jsMapSet m u.1 r
    else jsMapDelete m u.1
  | none => jsMapDelete m u.1

/-- One step of the "First add from API response" loop of the
`reservations` computed property:
`if (gwr.reservation && gwr.reservation.status === 'active')
 map.set(gwr.game.game_id, gwr.reservation)`. -/
def restInsert (m : List (Nat × Reservation)) (gwr : GameWithReservation) :
    List (Nat × Reservation) :=
  match gwr.reservation with
  | some r =>
    if r.status = ReservationStatus.active then jsMapSet m gwr.game.game_id r
    else m
  | none => m

/-- The `reservations` computed property of useGamesAPI.ts: populate from
the REST response, then fold the WebSocket update map over it in insertion
order. -/
def reservationsMap (restGames : List GameWithReservation)
    (updates : List (Nat × Option Reservation)) : List (Nat × Reservation) :=
  updates.foldl applyUpdate (restGames.foldl restInsert [])

/-- The composable's local reservation state: the latest REST games
response (`gamesQuery.data`) and the `reservationUpdates` map. -/
structure CacheState where
  restGames : List GameWithReservation
  updates : List (Nat × Option Reservation)
deriving DecidableEq, Repr

/-- The operations that mutate the composable's reservation state:
a background refetch (replaces the REST data, keeps `reservationUpdates`),
the exported `refetch` (clears all updates, then replaces the REST data),
`updateReservation`, `clearReservationUpdate` and
`clearAllReservationUpdates`. -/
inductive CacheOp
  | backgroundRefetch (data : List GameWithReservation)
  | manualRefetch (data : List GameWithReservation)
  | wsUpdateReservation (game_id : Nat) (r : Option Reservation)
  | clearReservationUpdate (game_id : Nat)
  | clearAllReservationUpdates
deriving DecidableEq, Repr

/-- Effect of one cache operation on the composable's reservation state. -/
def applyCacheOp (st : CacheState) (op : CacheOp) : CacheState :=
  match op with
  | .backgroundRefetch d => { st with restGames := d }
  | .manualRefetch d => { restGames := d, updates := [] }
  | .wsUpdateReservation gid r => { st with updates := jsMapSet st.updates gid r }
  | .clearReservationUpdate gid => { st with updates := jsMapDelete st.updates gid }
  | .clearAllReservationUpdates => { st with updates := [] }

/-- The composable's state before any data has arrived. -/
def initCache : CacheState :=
  { restGames := [], updates := [] }

/-- The reservations map the composable exposes for a given state. -/
def exposedReservations (st : CacheState) : List (Nat × Reservation) :=
  reservationsMap st.restGames st.updates

/-- The cache effects of `handleWebSocketMessage` in
`useGamesAPIWithWebSocket`: a game-state update invalidates the games
queries; `reservation_created` builds an `active` record from the message
fields and stores it; `reservation_released` removes the record and, for
reason `joined`, also invalidates. -/
inductive WSCacheEffect
  | invalidate
  | updateRes (game_id : Nat) (r : Option Reservation)
deriving DecidableEq, Repr

/-- `handleWebSocketMessage` from useGamesAPI.ts, restricted to its
observable cache effects. -/
def handleWebSocketMessage : WSMessage → List WSCacheEffect
  | .gameStateUpdate _ _ _ => [.invalidate]
  | .reservationCreated ts gid rb exp =>
    [.updateRes gid (some
      { game_id := gid
        wallet_address := rb
        created_at := ts
        expires_at := exp
        status := .active })]
  | .reservationReleased _ gid reason =>
    if reason == "joined" then [.updateRes gid none, .invalidate]
    else [.updateRes gid none]
  | .syncResponse _ _ _ => []
  | .error _ _ _ => []

/-- Every entry of the merged map has an `active` reservation. -/
def allActive (m : List (Nat × Reservation)) : Prop :=
  ∀ kv ∈ m, kv.2.status = ReservationStatus.active

theorem allActive_jsMapSet {m : List (Nat × Reservation)} {k : Nat} {r : Reservation}
    (hm : allActive m) (hr : r.status = ReservationStatus.active) :
    allActive (jsMapSet m k r) := by
  intro kv hkv
  rcases mem_jsMapSet m k r kv hkv with h | h
  · rw [h]
    exact hr
  · exact hm kv h

theorem allActive_jsMapDelete {m : List (Nat × Reservation)} {k : Nat}
    (hm : allActive m) : allActive (jsMapDelete m k) :=
  fun kv hkv => hm kv (mem_jsMapDelete m k kv hkv)

theorem allActive_restFold (rest : List GameWithReservation)
    (acc : List (Nat × Reservation)) (hacc : allActive acc) :
    allActive (rest.foldl restInsert acc) := by
  induction rest generalizing acc with
  | nil => exact hacc
  | cons gwr rs ih =>
    rw [List.foldl_cons]
    apply ih
    cases hres : gwr.reservation with
    | none => simpa [restInsert, hres] using hacc
    | some r =>
      by_cases hst : r.status = ReservationStatus.active
      · have heq : restInsert acc gwr = jsMapSet acc gwr.game.game_id r := by
          simp [restInsert, hres, hst]
        rw [heq]
        exact allActive_jsMapSet hacc hst
      · have heq : restInsert acc gwr = acc := by
          simp [restInsert, hres, hst]
        rw [heq]
        exact hacc

theorem allActive_updFold (ups : List (Nat × Option Reservation))
    (acc : List (Nat × Reservation)) (hacc : allActive acc) :
    allActive (ups.foldl applyUpdate acc) := by
  induction ups generalizing acc with
  | nil => exact hacc
  | cons u rest ih =>
    rw [List.foldl_cons]
    apply ih
    cases hres : u.2 with
    | none =>
      have heq : applyUpdate acc u = jsMapDelete acc u.1 := by
        simp [applyUpdate, hres]
      rw [heq]
      exact allActive_jsMapDelete hacc
    | some r =>
      by_cases hst : r.status = ReservationStatus.active
      · have heq : applyUpdate acc u = jsMapSet acc u.1 r := by
          simp [applyUpdate, hres, hst]
        rw [heq]
        exact allActive_jsMapSet hacc hst
      · have heq : applyUpdate acc u = jsMapDelete acc u.1 := by
          simp [applyUpdate, hres, hst]
        rw [heq]
        exact allActive_jsMapDelete hacc

theorem allActive_reservationsMap (rest : List GameWithReservation)
    (ups : List (Nat × Option Reservation)) : allActive (reservationsMap rest ups) :=
  allActive_updFold ups _ (allActive_restFold rest [] (fun kv hkv => absurd hkv (by simp)))

theorem jsMapGet_applyUpdate_ne (m : List (Nat × Reservation))
    (u : Nat × Option Reservation) (k : Nat) (h : ¬ u.1 = k) :
    jsMapGet (applyUpdate m u) k = jsMapGet m k := by
  have hk : ¬ k = u.1 := fun hh => h hh.symm
  cases hres : u.2 with
  | none =>
    have heq : applyUpdate m u = jsMapDelete m u.1 := by simp [applyUpdate, hres]
    rw [heq, jsMapGet_delete_ne m u.1 k hk]
  | some r =>
    by_cases hst : r.status = ReservationStatus.active
    · have heq : applyUpdate m u = jsMapSet m u.1 r := by simp [applyUpdate, hres, hst]
      rw [heq, jsMapGet_set, if_neg hk]
    · have heq : applyUpdate m u = jsMapDelete m u.1 := by simp [applyUpdate, hres, hst]
      rw [heq, jsMapGet_delete_ne m u.1 k hk]

theorem keysNodup_applyUpdate (m : List (Nat × Reservation))
    (u : Nat × Option Reservation) (hm : keysNodup m) :
    keysNodup (applyUpdate m u) := by
  cases hres : u.2 with
  | none =>
    have heq : applyUpdate m u = jsMapDelete m u.1 := by simp [applyUpdate, hres]
    rw [heq]
    exact keysNodup_jsMapDelete m u.1 hm
  | some r =>
    by_cases hst : r.status = ReservationStatus.active
    · have heq : applyUpdate m u = jsMapSet m u.1 r := by simp [applyUpdate, hres, hst]
      rw [heq]
      exact keysNodup_jsMapSet m u.1 r hm
    · have heq : applyUpdate m u = jsMapDelete m u.1 := by simp [applyUpdate, hres, hst]
      rw [heq]
      exact keysNodup_jsMapDelete m u.1 hm

theorem jsMapGet_updFold_of_not_mem (ups : List (Nat × Option Reservation))
    (acc : List (Nat × Reservation)) (k : Nat) (h : k ∉ jsMapKeys ups) :
    jsMapGet (ups.foldl applyUpdate acc) k = jsMapGet acc k := by
  induction ups generalizing acc with
  | nil => rfl
  | cons u rest ih =>
    rw [jsMapKeys, List.map_cons, List.mem_cons] at h
    push_neg at h
    rw [List.foldl_cons, ih _ (by rw [jsMapKeys]; exact h.2)]
    exact jsMapGet_applyUpdate_ne acc u k (fun hh => h.1 hh.symm)

/-- The value the override loop leaves at a key, given the update stored
for that key: an active reservation is kept, anything else means the entry
is removed. -/
def updateResult : Option Reservation → Option Reservation
  | some r => if r.status = ReservationStatus.active then some r else none
  | none => none

/-- The merged lookup at a key present in the WebSocket update map is fully
determined by that (latest) update — the REST data cannot shine through. -/
theorem jsMapGet_updFold_of_mem (ups : List (Nat × Option Reservation))
    (acc : List (Nat × Reservation)) (gid : Nat) (o : Option Reservation)
    (hn : keysNodup ups) (hacc : keysNodup acc) (hget : jsMapGet ups gid = some o) :
    jsMapGet (ups.foldl applyUpdate acc) gid = updateResult o := by
  induction ups generalizing acc with
  | nil => exact absurd hget (by simp [jsMapGet])
  | cons u rest ih =>
    rw [keysNodup, jsMapKeys, List.map_cons, List.nodup_cons] at hn
    by_cases hb : (u.1 == gid) = true
    · have hbe : u.1 = gid := beq_iff_eq.mp hb
      have ho : o = u.2 := by
        simp only [jsMapGet, if_pos hb, Option.some.injEq] at hget
        exact hget.symm
      have hnot : gid ∉ jsMapKeys rest := by
        rw [jsMapKeys, ← hbe]
        exact hn.1
      rw [List.foldl_cons, jsMapGet_updFold_of_not_mem rest _ gid hnot, ho]
      cases hres : u.2 with
      | none =>
        have heq : applyUpdate acc u = jsMapDelete acc u.1 := by simp [applyUpdate, hres]
        rw [heq, hbe, jsMapGet_delete acc gid gid hacc, if_pos rfl, updateResult]
      | some r =>
        by_cases hst : r.status = ReservationStatus.active
        · have heq : applyUpdate acc u = jsMapSet acc u.1 r := by
            simp [applyUpdate, hres, hst]
          rw [heq, hbe, jsMapGet_set, if_pos rfl]
          simp [updateResult, hst]
        · have heq : applyUpdate acc u = jsMapDelete acc u.1 := by
            simp [applyUpdate, hres, hst]
          rw [heq, hbe, jsMapGet_delete acc gid gid hacc, if_pos rfl]
          simp [updateResult, hst]
    · have hget2 : jsMapGet rest gid = some o := by
        simpa only [jsMapGet, if_neg hb] using hget
      rw [List.foldl_cons]
      exact ih (applyUpdate acc u) (by rw [keysNodup, jsMapKeys]; exact hn.2)
        (keysNodup_applyUpdate acc u hacc) hget2

theorem keysNodup_restFold (rest : List GameWithReservation)
    (acc : List (Nat × Reservation)) (hacc : keysNodup acc) :
    keysNodup (rest.foldl restInsert acc) := by
  induction rest generalizing acc with
  | nil => exact hacc
  | cons gwr rs ih =>
    rw [List.foldl_cons]
    apply ih
    cases hres : gwr.reservation with
    | none =>
      have heq : restInsert acc gwr = acc := by simp [restInsert, hres]
      rw [heq]
      exact hacc
    | some r =>
      by_cases hst : r.status = ReservationStatus.active
      · have heq : restInsert acc gwr = jsMapSet acc gwr.game.game_id r := by
          simp [restInsert, hres, hst]
        rw [heq]
        exact keysNodup_jsMapSet acc _ r hacc
      · have heq : restInsert acc gwr = acc := by simp [restInsert, hres, hst]
        rw [heq]
        exact hacc

theorem keysNodup_applyCacheOp (st : CacheState) (op : CacheOp)
    (h : keysNodup st.updates) : keysNodup (applyCacheOp st op).updates := by
  cases op with
  | backgroundRefetch d => exact h
  | manualRefetch d => simp [applyCacheOp, keysNodup, jsMapKeys]
  | wsUpdateReservation gid r => exact keysNodup_jsMapSet st.updates gid r h
  | clearReservationUpdate gid => exact keysNodup_jsMapDelete st.updates gid h
  | clearAllReservationUpdates => simp [applyCacheOp, keysNodup, jsMapKeys]

theorem keysNodup_cacheFold (ops : List CacheOp) :
    keysNodup (ops.foldl applyCacheOp initCache).updates := by
  have general : ∀ st : CacheState, keysNodup st.updates →
      keysNodup (ops.foldl applyCacheOp st).updates := by
    induction ops with
    | nil => exact fun st h => h
    | cons op rest ih =>
      intro st h
      rw [List.foldl_cons]
      exact ih _ (keysNodup_applyCacheOp st op h)
  exact general initCache (by simp [initCache, keysNodup, jsMapKeys])

/-- A concrete backend game entity (game id 1, waiting for an opponent). -/
def apiGameOne : APIGame :=
  { game_id := 1
    status := 1
    player_one_address := "EQplayerOne"
    player_two_address := none
    player_one_choice := 1
    player_two_choice := none
    player_one_referrer := none
    player_two_referrer := none
    bet_amount := 1000000000
    winner_address := none
    payout_amount := none
    service_fee_numerator := 0
    referrer_fee_numerator := 0
    waiting_timeout_seconds := 300
    lowest_bid_allowed := 0
    highest_bid_allowed := 0
    fee_receiver_address := "EQfeeReceiver"
    created_at := "2024-01-01T00:00:00Z"
    joined_at := none
    revealed_at := none
    completed_at := none
    init_tx_hash := "tx-one"
    join_tx_hash := none
    reveal_tx_hash := none
    result_tx_hash := none
    cancelled := false }

/-- The reservation for game 1 reported by the REST response, with the
NEWER server timestamp. -/
def restResOne : Reservation :=
  { game_id := 1
    wallet_address := "EQwalletA"
    created_at := 200
    expires_at := 500
    status := .active }

/-- A reservation for the same game arriving later over the WebSocket but
carrying the OLDER server timestamp (100; out-of-order redelivery). -/
def wsResOne : Reservation :=
  { game_id := 1
    wallet_address := "EQwalletB"
    created_at := 100
    expires_at := 400
    status := .active }

/-- Game 1 with its REST-reported reservation. -/
def gwrOne : GameWithReservation :=
  { game := apiGameOne, reservation := some restResOne }

/-- Modelled from the spec: "merges the returned authoritative record into
local caches using last-writer-wins by server timestamp" — of two
conflicting records for the same entity id, keep the one whose server
timestamp (`created_at`) is newer. -/
def lwwByServerTimestamp (a b : Reservation) : Reservation :=
  if a.created_at < b.created_at then b else a

/-- C2 counterexample: the REST response holds an active reservation for
game 1 with server timestamp 200; a WebSocket update then arrives
carrying an active reservation with the strictly older timestamp 100.  The merged cache exposes the later-arriving, older-timestamped
record — arrival order and source priority decide, and the result differs
from what last-writer-wins by server timestamp would select. -/
theorem c2_arrival_order_beats_timestamp :
    jsMapGet (exposedReservations (List.foldl applyCacheOp initCache
        [CacheOp.backgroundRefetch [gwrOne],
         CacheOp.wsUpdateReservation 1 (some wsResOne)])) 1 = some wsResOne ∧
    wsResOne.created_at < restResOne.created_at ∧
    lwwByServerTimestamp restResOne wsResOne = restResOne ∧
    ¬ jsMapGet (exposedReservations (List.foldl applyCacheOp initCache
        [CacheOp.backgroundRefetch [gwrOne],
         CacheOp.wsUpdateReservation 1 (some wsResOne)])) 1
      = some (lwwByServerTimestamp restResOne wsResOne) := by
  refine ⟨by decide, by decide, by decide, by decide⟩

/-- C2 amended: the merged reservation cache resolves conflicting records
for the same game id by source priority and arrival order, never by server
timestamp: the most recently applied WebSocket update for an id is what the
update map stores, and whenever the update map has an entry for an id the
merged result at that id is determined by that entry alone, regardless of
the REST record and of every `created_at` timestamp involved. -/
theorem c2_ws_update_overrides_by_arrival (rest : List GameWithReservation)
    (ups : List (Nat × Option Reservation)) (gid : Nat) (r : Reservation)
    (hn : keysNodup ups) (ha : r.status = ReservationStatus.active) :
    jsMapGet (jsMapSet ups gid (some r)) gid = some (some r) ∧
    jsMapGet (reservationsMap rest (jsMapSet ups gid (some r))) gid = some r := by
  have h1 : jsMapGet (jsMapSet ups gid (some r)) gid = some (some r) := by
    rw [jsMapGet_set, if_pos rfl]
  refine ⟨h1, ?_⟩
  rw [reservationsMap,
      jsMapGet_updFold_of_mem (jsMapSet ups gid (some r)) _ gid (some r)
        (keysNodup_jsMapSet ups gid (some r) hn)
        (keysNodup_restFold rest [] (by simp [keysNodup, jsMapKeys])) h1]
  simp [updateResult, ha]

/-- Witness for C2 amended: the WebSocket record wins over the
newer-timestamped REST record. -/
theorem c2_ws_update_overrides_by_arrival_witness :
    jsMapGet (reservationsMap [gwrOne] (jsMapSet [] 1 (some wsResOne))) 1
      = some wsResOne :=
  (c2_ws_update_overrides_by_arrival [gwrOne] [] 1 wsResOne
    (by simp [keysNodup, jsMapKeys]) rfl).2

/-- C10: after every interleaving of REST refreshes (background or manual)
and WebSocket reservation updates, (1) every entry of the exposed
reservations map has status `active` — non-active REST reservations are
never inserted; (2) a WebSocket update carrying `null` or a non-active
reservation for a game id removes that game's entry from the exposed map;
and (3) `handleWebSocketMessage` only ever feeds the cache `null` or an
`active` record. -/
theorem c10_reservations_all_active (ops : List CacheOp) :
    (∀ k r, jsMapGet (exposedReservations (ops.foldl applyCacheOp initCache)) k
        = some r → r.status = ReservationStatus.active) ∧
    (∀ gid o, (∀ r, o = some r → ¬ r.status = ReservationStatus.active) →
      jsMapGet (exposedReservations (applyCacheOp (ops.foldl applyCacheOp initCache)
        (CacheOp.wsUpdateReservation gid o))) gid = none) ∧
    (∀ m gid r, WSCacheEffect.updateRes gid (some r) ∈ handleWebSocketMessage m →
      r.status = ReservationStatus.active) := by
  refine ⟨?_, ?_, ?_⟩
  · intro k r hget
    obtain ⟨kv, hmem, hv⟩ := exists_mem_of_jsMapGet_eq_some _ k r hget
    rw [← hv]
    exact allActive_reservationsMap _ _ kv hmem
  · intro gid o ho
    have hn : keysNodup (ops.foldl applyCacheOp initCache).updates :=
      keysNodup_cacheFold ops
    have h1 : jsMapGet (jsMapSet (ops.foldl applyCacheOp initCache).updates gid o) gid
        = some o := by
      rw [jsMapGet_set, if_pos rfl]
    show jsMapGet (reservationsMap (ops.foldl applyCacheOp initCache).restGames
      (jsMapSet (ops.foldl applyCacheOp initCache).updates gid o)) gid = none
    rw [reservationsMap,
        jsMapGet_updFold_of_mem _ _ gid o
          (keysNodup_jsMapSet (ops.foldl applyCacheOp initCache).updates gid o hn)
          (keysNodup_restFold (ops.foldl applyCacheOp initCache).restGames []
            (by simp [keysNodup, jsMapKeys])) h1]
    cases o with
    | none => rfl
    | some r => simp [updateResult, ho r rfl]
  · intro m gid r hmem
    cases m with
    | gameStateUpdate ts g st => simp [handleWebSocketMessage] at hmem
    | reservationCreated ts g rb exp =>
      simp [handleWebSocketMessage] at hmem
      rw [hmem.2]
    | reservationReleased ts g reason =>
      by_cases hj : (reason == "joined") = true
      · simp [handleWebSocketMessage, hj] at hmem
      · simp [handleWebSocketMessage, hj] at hmem
    | syncResponse ts g res => simp [handleWebSocketMessage] at hmem
    | error ts c msg => simp [handleWebSocketMessage] at hmem

/-- Witness for C10: after a REST refresh listing game 1 as actively
reserved, a WebSocket release (`null` update) removes the entry. -/
theorem c10_reservations_all_active_witness :
    jsMapGet (exposedReservations (applyCacheOp
      (List.foldl applyCacheOp initCache [CacheOp.backgroundRefetch [gwrOne]])
      (CacheOp.wsUpdateReservation 1 none))) 1 = none :=
  (c10_reservations_all_active [CacheOp.backgroundRefetch [gwrOne]]).2.1 1 none
    (fun _ hr => Option.noConfusion hr)

/-- C5 counterexample: on the sixth consecutive failure (a Connecting-phase
transport error with all 5 reconnect attempts already consumed), the
counter does not increase, no backoff timer is scheduled, and the engine
transitions to `failed` instead — refuting the claim for EVERY
Connecting-phase failure. -/
theorem c5_sixth_failure_no_increment :
    ((run (initService "cx")
        [Event.connectCall 3 "i" none, Event.transportOpen 0 none,
         Event.transportClose 1006, Event.timerFire none, Event.transportClose 1006,
         Event.timerFire none, Event.transportClose 1006, Event.timerFire none,
         Event.transportClose 1006, Event.timerFire none, Event.transportClose 1006,
         Event.timerFire none]).1.reconnectAttempts = 5) ∧
    ((run (initService "cx")
        [Event.connectCall 3 "i" none, Event.transportOpen 0 none,
         Event.transportClose 1006, Event.timerFire none, Event.transportClose 1006,
         Event.timerFire none, Event.transportClose 1006, Event.timerFire none,
         Event.transportClose 1006, Event.timerFire none, Event.transportClose 1006,
         Event.timerFire none]).1.wsPresent = true) ∧
    ((step (run (initService "cx")
        [Event.connectCall 3 "i" none, Event.transportOpen 0 none,
         Event.transportClose 1006, Event.timerFire none, Event.transportClose 1006,
         Event.timerFire none, Event.transportClose 1006, Event.timerFire none,
         Event.transportClose 1006, Event.timerFire none, Event.transportClose 1006,
         Event.timerFire none]).1 (Event.transportError "boom")).1.reconnectAttempts = 5) ∧
    ((step (run (initService "cx")
        [Event.connectCall 3 "i" none, Event.transportOpen 0 none,
         Event.transportClose 1006, Event.timerFire none, Event.transportClose 1006,
         Event.timerFire none, Event.transportClose 1006, Event.timerFire none,
         Event.transportClose 1006, Event.timerFire none, Event.transportClose 1006,
         Event.timerFire none]).1 (Event.transportError "boom")).1.reconnectTimeout = none) ∧
    ((step (run (initService "cx")
        [Event.connectCall 3 "i" none, Event.transportOpen 0 none,
         Event.transportClose 1006, Event.timerFire none, Event.transportClose 1006,
         Event.timerFire none, Event.transportClose 1006, Event.timerFire none,
         Event.transportClose 1006, Event.timerFire none, Event.transportClose 1006,
         Event.timerFire none]).1 (Event.transportError "boom")).1.state.status
      = WSStatus.failed) := by
  decide
